import Mathlib

/-!
Shallow embedding of the route-synthesis core of the telegram-travel-bot
repository (src/src/core/route-stitcher.js, which concatenates the
RouteStitcher and RouteValidator sources; src/src/utils/helpers.js; the
PriceNormalizer source; src/config/config.js), together with proofs about
the claims C1 to C10.

Modeling conventions, used consistently below:
- JavaScript numbers are modeled as Rat (timestamps as Int epoch
  milliseconds).  The library arithmetic on Rat is irreducible, so the
  embedding uses executable wrappers (qAdd, qMul, ...) built on mkRat;
  they denote ordinary rational arithmetic.
- A JS object field that may be undefined is modeled by its falsy default
  (empty string, 0, empty list) whenever the source only uses the field in
  falsy-sensitive positions (x or-else d), where undefined and the falsy
  default behave identically.
- External collaborators (provider HTTP clients, the exchange-rate
  service, the Redis cache, affiliate-link builders) are inputs: an Env
  record of functions and Except-valued provider results.
- Number-to-string rendering (template literals, toLocaleString, toFixed)
  is abstracted by toString on Rat/Int; no claim depends on rendered text.
- Math.random in the deduplicator fallback is modeled as a fresh opaque
  tag (SigBase.rnd with the per-pass element index), distinct from every
  string signature, matching the source comment that such routes
  effectively never deduplicate.
-/

/-! ### Executable rational arithmetic -/

/-- Executable embedding of an integer into Rat. -/
def qOfInt (n : Int) : Rat := mkRat n 1

/-- Executable addition on Rat. -/
def qAdd (a b : Rat) : Rat :=
  mkRat (a.num * (b.den : Int) + b.num * (a.den : Int)) (a.den * b.den)

/-- Executable subtraction on Rat. -/
def qSub (a b : Rat) : Rat :=
  mkRat (a.num * (b.den : Int) - b.num * (a.den : Int)) (a.den * b.den)

/-- Executable multiplication on Rat. -/
def qMul (a b : Rat) : Rat := mkRat (a.num * b.num) (a.den * b.den)

/-- Executable division on Rat (division by zero yields 0, never hit by the
claims). -/
def qDiv (a b : Rat) : Rat := Rat.divInt (a.num * (b.den : Int)) ((a.den : Int) * b.num)

/-- Executable less-or-equal test on Rat, by cross multiplication. -/
def qLe (a b : Rat) : Bool := a.num * (b.den : Int) ≤ b.num * (a.den : Int)

/-- Executable strict less-than test on Rat, by cross multiplication. -/
def qLt (a b : Rat) : Bool := a.num * (b.den : Int) < b.num * (a.den : Int)

/-- Executable floor on Rat (denominators are positive). -/
def qFloor (a : Rat) : Int := Int.fdiv a.num a.den

/-- JS Math.round: round half toward positive infinity. -/
def qRound (a : Rat) : Int := qFloor (qAdd a (mkRat 1 2))

/-! ### Data model

Segment: one operated flight leg, as the providers deliver it.  The JS
field names from/to are kept (from is a Lean keyword, hence the
guillemets).  departure/arrival are UTC instants in epoch milliseconds
(the JS code re-parses them with new Date; parseability is built into the
Int model). -/

structure Segment where
  «from» : String := ""
  «to» : String := ""
  airline : String := ""
  flightNumber : String := ""
  departure : Int := 0
  arrival : Int := 0
deriving DecidableEq, Repr

/-- Itinerary object as the stitcher/validator/normalizer handle it.  All
fields of the JS object appear; absent JS fields are the falsy defaults.
components holds references to the two source routes in JS, used only by
affiliate-link generation (an external collaborator here); it is modeled
by the component route ids in order. -/
structure Route where
  id : String := ""
  airlines : List String := []
  segments : List Segment := []
  totalPrice : Rat := 0
  currency : String := ""
  totalDuration : Rat := 0
  virtualInterline : Bool := false
  separateTickets : Bool := false
  bookingEngine : String := ""
  source : String := ""
  connectionAirport : String := ""
  connectionTime : Rat := 0
  originalRoutes : List String := []
  distance : Rat := 0
  transferCount : Rat := 0
  components : List String := []
  multiHub : Bool := false
  hubs : List String := []
  deepLink : String := ""
  affiliateLink : Option String := none
  displayPrice : String := ""
  totalPriceZAR : Rat := 0
  baggageFeeZAR : Rat := 0
  bookingFeeZAR : Rat := 0
  taxAmountZAR : Rat := 0
  finalPriceZAR : Rat := 0
deriving DecidableEq, Repr

/-! ### config.js constants (src/config/config.js, limits and africa
sections; feature flags and cache switches live in Env below because they
come from environment variables). -/

def config_limits_minConnectionTime : Int := 2 * 60 * 60 * 1000

def config_limits_maxConnectionTime : Int := 24 * 60 * 60 * 1000

def config_limits_maxStitchedRoutes : Nat := 50

def config_limits_maxRoutesPerSearch : Nat := 1000

def config_africa_hubAirports : List String :=
  ["JNB", "CPT", "ADD", "NBO", "LOS", "ACC", "CAI", "DXB", "DOH", "IST"]

/-! ### Helpers (src/src/utils/helpers.js) -/

/-- Character class test for the regex [A-Z]. -/
def isUpperAZ (c : Char) : Bool := 'A' ≤ c && c ≤ 'Z'

/-- The test of the anchored regex [A-Z]{3} used on airport codes. -/
def testAirportCodeRegex (s : String) : Bool :=
  s.length == 3 && s.toList.all isUpperAZ

/-- Helpers.formatDuration: renders minutes (possibly fractional) as Nh Mm;
zero or negative input gives N/A.  JS computes hours with Math.floor and
mins with the remainder operator, identical on the nonnegative inputs
reaching this line. -/
def formatDuration (minutes : Rat) : String :=
  if qLe minutes 0 then "N/A"
  else
    let hours : Int := qFloor (qDiv minutes (qOfInt 60))
    let mins : Rat := qSub minutes (qMul (qOfInt 60) (qOfInt hours))
    if hours = 0 then toString mins ++ "m"
    else if mins = 0 then toString hours ++ "h"
    else toString hours ++ "h " ++ toString mins ++ "m"

/-- Helpers.formatPrice (digit grouping of toLocaleString abstracted by
toString; the non-number N/A branch cannot arise in the Rat model). -/
def formatPrice (amount : Rat) (currency : String) : String :=
  (if currency = "ZAR" then "R"
   else if currency = "USD" then "$"
   else if currency = "EUR" then "€"
   else currency) ++ toString amount

/-- Base64 character table, for Helpers.generateRouteId. -/
def b64char (n : Nat) : Char :=
  if n < 26 then Char.ofNat ('A'.toNat + n)
  else if n < 52 then Char.ofNat ('a'.toNat + (n - 26))
  else if n < 62 then Char.ofNat ('0'.toNat + (n - 52))
  else if n = 62 then '+'
  else '/'

/-- Base64 encoding of a byte list (standard alphabet with = padding). -/
def b64encode : List Nat → List Char
  | [] => []
  | [a] =>
    [b64char (a / 4), b64char (a % 4 * 16), '=', '=']
  | [a, b] =>
    [b64char (a / 4), b64char (a % 4 * 16 + b / 16), b64char (b % 16 * 4), '=']
  | a :: b :: c :: rest =>
    b64char (a / 4) :: b64char (a % 4 * 16 + b / 16) ::
    b64char (b % 16 * 4 + c / 64) :: b64char (c % 64) :: b64encode rest

/-- UTF-8 byte sequence of one character (all four encoding lengths). -/
def utf8Bytes (c : Char) : List Nat :=
  let n := c.toNat
  if n < 128 then [n]
  else if n < 2048 then [192 + n / 64, 128 + n % 64]
  else if n < 65536 then [224 + n / 4096, 128 + n / 64 % 64, 128 + n % 64]
  else [240 + n / 262144, 128 + n / 4096 % 64, 128 + n / 64 % 64, 128 + n % 64]

/-- Helpers.generateRouteId: base64 of the UTF-8 bytes of the joined
segment descriptor, with non-alphanumerics stripped.  The segment-less
branch returns a fresh uuid in JS; routes reaching it are not produced by
the stitcher, and the model returns a fixed tag. -/
def generateRouteId (segments : List Segment) : String :=
  if segments = [] then "uuid"
  else
    let segmentStrings := String.intercalate "_" (segments.map (fun s =>
      s.airline ++ "_" ++ s.flightNumber ++ "_" ++ s.«from» ++ "_" ++ s.«to»))
    String.mk ((b64encode (segmentStrings.toList.flatMap utf8Bytes)).filter
      Char.isAlphanum)

/-- Helpers.generateCacheKey: only from, to, date, returnDate, passengers
and currency enter the key. -/
structure SearchParams where
  «from» : String := ""
  «to» : String := ""
  date : String := ""
  returnDate : String := ""
  passengers : Nat := 0
  bags : Nat := 0
  cabinClass : String := ""
  currency : String := ""
  tripType : String := ""
  userId : String := ""
deriving DecidableEq, Repr

def generateCacheKey (params : SearchParams) : String :=
  "search:" ++ params.«from» ++ ":" ++ params.«to» ++ ":" ++ params.date ++ ":" ++
  (if params.returnDate = "" then "oneway" else params.returnDate) ++ ":" ++
  (toString (if params.passengers = 0 then 1 else params.passengers)) ++ ":" ++
  (if params.currency = "" then "ZAR" else params.currency)

/-! ### RouteValidator (second source file inside
src/src/core/route-stitcher.js). The constructor also carries a
visaRequirements country-pair table that no validator code path reads; it
is omitted. -/

/-- Minimum connection times by airport type, in minutes. -/
structure MinConnectionTimes where
  default : Nat
  international : Nat
  large_hub : Nat
  self_transfer : Nat
  virtual_interline : Nat

def minConnectionTimes : MinConnectionTimes :=
  { default := 60, international := 90, large_hub := 120,
    self_transfer := 180, virtual_interline := 240 }

/-- Maximum connection times, in minutes. -/
structure MaxConnectionTimes where
  default : Nat
  visa_free : Nat
  visa_required : Nat

def maxConnectionTimes : MaxConnectionTimes :=
  { default := 1440, visa_free := 720, visa_required := 480 }

/-- getCountryFromAirport: the hardcoded airport-to-country table, with
the Unknown fallback. -/
def getCountryFromAirport (airportCode : String) : String :=
  ((([
    ("JNB", "ZA"), ("CPT", "ZA"), ("DUR", "ZA"), ("GRJ", "ZA"), ("PLZ", "ZA"),
    ("LOS", "NG"), ("ABV", "NG"), ("PHC", "NG"),
    ("NBO", "KE"), ("MBA", "KE"),
    ("ADD", "ET"),
    ("CAI", "EG"), ("HRG", "EG"),
    ("ACC", "GH"),
    ("DXB", "AE"), ("AUH", "AE"),
    ("DOH", "QA"),
    ("LHR", "GB"), ("LGW", "GB"),
    ("JFK", "US"), ("LAX", "US"),
    ("CDG", "FR"),
    ("AMS", "NL"),
    ("FRA", "DE"),
    ("IST", "TR")] : List (String × String)).lookup airportCode).getD "Unknown")

/-- isLargeHub: membership in the hardcoded large-hub list. -/
def isLargeHub (airportCode : String) : Bool :=
  ["JNB", "CPT", "LOS", "NBO", "ADD", "CAI", "ACC", "DXB", "DOH",
   "LHR", "CDG", "AMS", "FRA", "IST", "JFK", "LAX", "HKG", "SIN"].contains airportCode

/-- isInternationalConnection: compares the country of the first leg's
origin with the country of the second leg's destination (as the source
does). -/
def isInternationalConnection (segmentA segmentB : Segment) : Bool :=
  getCountryFromAirport segmentA.«from» != getCountryFromAirport segmentB.«to»

/-- Result object of checkAirportChange. -/
structure AirportChange where
  requiresChange : Bool
  details : String := ""
  distance : String := ""
  estimatedTransferTime : String := ""
deriving DecidableEq, Repr

/-- The multi-airport city table of checkAirportChange, in insertion
order. -/
def multiAirportCities : List (String × List String) :=
  [("LON", ["LHR", "LGW", "STN", "LTN"]),
   ("NYC", ["JFK", "EWR", "LGA"]),
   ("PAR", ["CDG", "ORY"]),
   ("TYO", ["HND", "NRT"]),
   ("CHI", ["ORD", "MDW"]),
   ("LAX", ["LAX", "BUR", "SNA", "ONT", "LGB"])]

/-- checkAirportChange: first city whose airport list contains both the
arrival and the next departure airport, with the two distinct, requires an
airport change. -/
def checkAirportChange (segmentA segmentB : Segment) : AirportChange :=
  match multiAirportCities.find? (fun e =>
      e.2.contains segmentA.«to» && e.2.contains segmentB.«from» &&
      segmentA.«to» != segmentB.«from») with
  | some e =>
    { requiresChange := true,
      details := "Change airports in " ++ e.1 ++ ": " ++ segmentA.«to» ++ " to " ++ segmentB.«from»,
      distance := "Varies",
      estimatedTransferTime := "60-120 minutes" }
  | none => { requiresChange := false }

/-- Result object of validateConnection (failure objects leave
connectionTime at its 0 default, success leaves reason empty, mirroring
the absent JS fields). -/
structure ConnVerdict where
  valid : Bool
  reason : String := ""
  connectionTime : Rat := 0
  connectionTimeFormatted : String := ""
deriving DecidableEq, Repr

/-- validateConnection, in source order: airport mismatch, negative gap,
minimum by the priority policy (the caller-supplied minimum is
overwritten on every path), caller-or-default maximum, then the
airport-change rule.  maxConnectionTimeMs = 0 models the falsy
(undefined) argument of the JS or-else default. -/
def validateConnection (segmentA segmentB : Segment)
    (minConnectionTimeMs maxConnectionTimeMs : Int)
    (isVirtualInterline : Bool := false) : ConnVerdict :=
  if segmentA.«to» ≠ segmentB.«from» then
    { valid := false,
      reason := "Airport mismatch: " ++ segmentA.«to» ++ " != " ++ segmentB.«from» }
  else
    let connectionTimeMs : Int := segmentB.departure - segmentA.arrival
    if connectionTimeMs < 0 then
      { valid := false, reason := "Backward connection time" }
    else
      let requiredMinTimeMs : Int := minConnectionTimeMs
      let requiredMinTimeMs : Int :=
        if isVirtualInterline then
          (minConnectionTimes.virtual_interline : Int) * 60 * 1000
        else if isLargeHub segmentA.«to» then
          (minConnectionTimes.large_hub : Int) * 60 * 1000
        else if isInternationalConnection segmentA segmentB then
          (minConnectionTimes.international : Int) * 60 * 1000
        else
          (minConnectionTimes.default : Int) * 60 * 1000
      if connectionTimeMs < requiredMinTimeMs then
        { valid := false,
          reason := "Connection too short: " ++ formatDuration (mkRat connectionTimeMs (1000 * 60)) ++
            " < " ++ formatDuration (mkRat requiredMinTimeMs (1000 * 60)) }
      else
        let maxTimeMs : Int :=
          if maxConnectionTimeMs = 0 then (maxConnectionTimes.default : Int) * 60 * 1000
          else maxConnectionTimeMs
        if connectionTimeMs > maxTimeMs then
          { valid := false,
            reason := "Connection too long: " ++ formatDuration (mkRat connectionTimeMs (1000 * 60)) ++
              " > " ++ formatDuration (mkRat maxTimeMs (1000 * 60)) }
        else
          let airportChange := checkAirportChange segmentA segmentB
          if airportChange.requiresChange ∧ connectionTimeMs < 180 * 60 * 1000 then
            { valid := false,
              reason := "Insufficient time for airport change: " ++ airportChange.details }
          else
            { valid := true,
              connectionTime := mkRat connectionTimeMs (1000 * 60),
              connectionTimeFormatted := formatDuration (mkRat connectionTimeMs (1000 * 60)) }

/-- Result object of the visa and airport-change validators. -/
structure SimpleVerdict where
  valid : Bool
  reason : String := ""
  details : String := ""
deriving DecidableEq, Repr

/-- The fixed transit-visa country list of validateVisaRequirements. -/
def visaRequiredTransits : List String := ["US", "UK", "CA", "AU", "NZ"]

/-- validateVisaRequirements: collect the transit airports (arrival equal
to the next departure), map them to countries, and fail on the first
country in the visa-required list. -/
def validateVisaRequirements (segments : List Segment) : SimpleVerdict :=
  if segments = [] then { valid := true, reason := "No segments" }
  else
    let transitAirports := (segments.zip segments.tail).filterMap (fun p =>
      if p.1.«to» = p.2.«from» then some p.1.«to» else none)
    let transitCountries := transitAirports.map getCountryFromAirport
    match transitCountries.find? (fun c => visaRequiredTransits.contains c) with
    | some country =>
      { valid := false,
        reason := "Transit visa may be required for " ++ country,
        details := "Check with embassy for transit requirements" }
    | none => { valid := true, reason := "No visa issues detected" }

/-- Loop body of validateAirportChanges: the destination of each segment
must not already have been visited, except as the overall final
destination; origins and destinations are added to the visited set after
the check. -/
def validateAirportChangesGo (lastTo : String) (visited : List String) :
    List Segment → SimpleVerdict
  | [] => { valid := true, reason := "No unreasonable airport changes" }
  | s :: rest =>
    if s.«to» ∈ visited ∧ s.«to» ≠ lastTo then
      { valid := false,
        reason := "Unreasonable backtracking to " ++ s.«to»,
        details := "Route revisits airport unnecessarily" }
    else validateAirportChangesGo lastTo (s.«to» :: s.«from» :: visited) rest

/-- validateAirportChanges (the final destination referenced in the loop
is the last segment's destination; with no segments the loop never runs). -/
def validateAirportChanges (segments : List Segment) : SimpleVerdict :=
  match segments.getLast? with
  | none => { valid := true, reason := "No unreasonable airport changes" }
  | some last => validateAirportChangesGo last.«to» [] segments

/-- The hardcoded distance table of estimateSegmentDistance, in km. -/
def distances : List (String × Rat) :=
  [("JNB-CPT", 1273), ("JNB-DUR", 523), ("JNB-LOS", 4546), ("JNB-NBO", 2985),
   ("LOS-ACC", 481), ("LOS-LHR", 5103), ("NBO-DXB", 3274), ("ACC-JFK", 8543),
   ("CPT-LHR", 9645), ("ADD-IST", 3347), ("CAI-DXB", 2222), ("DXB-LHR", 5567),
   ("JNB-SIN", 8765), ("CPT-GRJ", 360)]

/-- estimateSegmentDistance: direct key, reverse key, else 1000 km. -/
def estimateSegmentDistance («from» «to» : String) : Rat :=
  let key := «from» ++ "-" ++ «to»
  let reverseKey := «to» ++ "-" ++ «from»
  ((distances.lookup key).getD ((distances.lookup reverseKey).getD (qOfInt 1000)))

/-- estimateTotalDistance: sum of per-segment estimates. -/
def estimateTotalDistance (segments : List Segment) : Rat :=
  segments.foldl (fun acc s => qAdd acc (estimateSegmentDistance s.«from» s.«to»)) (qOfInt 0)

/-- Result object of validateTotalDuration. -/
structure DurVerdict where
  valid : Bool
  reason : String := ""
  maxAllowed : String := ""
  estimatedMinimum : String := ""
  totalDuration : Rat := 0
  totalDurationFormatted : String := ""
deriving DecidableEq, Repr

/-- validateTotalDuration: wall-clock duration below 48 hours and at least
half of the distance-based estimate (distance / 800 km/h plus 1.5 h per
segment); route.distance is used when truthy, else the table estimate. -/
def validateTotalDuration (route : Route) : DurVerdict :=
  match route.segments with
  | [] => { valid := false, reason := "No segments" }
  | first :: rest =>
    let last := (first :: rest).getLast (List.cons_ne_nil _ _)
    let totalDurationMs : Int := last.arrival - first.departure
    let totalDurationHours : Rat := mkRat totalDurationMs (1000 * 60 * 60)
    if qLt (qOfInt 48) totalDurationHours then
      { valid := false,
        reason := "Total duration too long: " ++ toString totalDurationHours ++ " hours",
        maxAllowed := "48 hours" }
    else
      let totalDistance := if route.distance = 0 then estimateTotalDistance route.segments
        else route.distance
      let estimatedFlightTime := qDiv totalDistance (qOfInt 800)
      let estimatedTotalTime := qAdd estimatedFlightTime
        (qMul (qOfInt route.segments.length) (mkRat 3 2))
      if qLt totalDurationHours (qMul estimatedTotalTime (mkRat 1 2)) then
        { valid := false,
          reason := "Duration seems too short for distance: " ++ toString totalDurationHours ++
            " hours for ~" ++ toString (qRound totalDistance) ++ " km",
          estimatedMinimum := toString estimatedTotalTime ++ " hours" }
      else
        { valid := true,
          totalDuration := totalDurationHours,
          totalDurationFormatted := formatDuration (mkRat totalDurationMs (1000 * 60)) }

/-- validateSegment: required fields truthy, airport codes match the
three-uppercase-letter regex, departure strictly before arrival, single
segment at most 20 hours, origin distinct from destination.  (The Int
instant model makes the NaN-date branch unreachable; a JS timestamp of 0
is falsy and is rejected by the required-fields check, as here.) -/
def validateSegment (s : Segment) : Bool :=
  if s.«from» = "" ∨ s.«to» = "" ∨ s.departure = 0 ∨ s.arrival = 0 then false
  else if ¬ (testAirportCodeRegex s.«from» ∧ testAirportCodeRegex s.«to») then false
  else if s.departure ≥ s.arrival then false
  else if s.arrival - s.departure > 20 * 60 * 60 * 1000 then false
  else if s.«from» = s.«to» then false
  else true

/-- validateRoute: segment validity, pairwise connection validity, visa,
airport changes, total duration, short-circuiting in source order.  The
JS try/catch returns false on an exception; no modeled step throws. -/
def validateRoute (route : Route) (minConnectionTimeMs maxConnectionTimeMs : Int) : Bool :=
  if route.segments = [] then false
  else
    route.segments.all validateSegment &&
    (route.segments.zip route.segments.tail).all (fun p =>
      (validateConnection p.1 p.2 minConnectionTimeMs maxConnectionTimeMs
        route.virtualInterline).valid) &&
    (validateVisaRequirements route.segments).valid &&
    (validateAirportChanges route.segments).valid &&
    (validateTotalDuration route).valid

/-! ### RouteStitcher (first source file inside
src/src/core/route-stitcher.js).  The constructor copies the config
limits into instance fields; the defs below read the config constants
directly. -/

/-- stitchTwoRoutes: join two routes at a shared airport.  Null or
segment-less inputs fail; then, in source order: the airports must match,
the gap must lie within the instance [min, max] connection-time bounds
(config.limits, 2 h and 24 h), and the two route ids must differ.  The JS
null-input guard is the totality of the Route arguments here. -/
def stitchTwoRoutes (firstLeg secondLeg : Route) : Option Route :=
  match firstLeg.segments, secondLeg.segments with
  | f1 :: frest, s1 :: srest =>
    let lastSegmentFirst := (f1 :: frest).getLast (List.cons_ne_nil _ _)
    let firstSegmentSecond := s1
    if lastSegmentFirst.«to» ≠ firstSegmentSecond.«from» then none
    else
      let connectionTime : Int := firstSegmentSecond.departure - lastSegmentFirst.arrival
      if connectionTime < config_limits_minConnectionTime ∨
          connectionTime > config_limits_maxConnectionTime then none
      else if firstLeg.id = secondLeg.id then none
      else
        let combinedSegments := (f1 :: frest) ++ (s1 :: srest)
        let combinedAirlines := (firstLeg.airlines ++ secondLeg.airlines).eraseDups
        let firstDeparture := f1.departure
        let lastArrival := ((s1 :: srest).getLast (List.cons_ne_nil _ _)).arrival
        some
          { id := generateRouteId combinedSegments,
            airlines := combinedAirlines,
            segments := combinedSegments,
            totalPrice := qAdd firstLeg.totalPrice secondLeg.totalPrice,
            currency := if firstLeg.currency = "" then "ZAR" else firstLeg.currency,
            totalDuration := mkRat (lastArrival - firstDeparture) (1000 * 60),
            virtualInterline := true,
            separateTickets := true,
            bookingEngine := "virtual-interline",
            source := "stitched",
            connectionAirport := lastSegmentFirst.«to»,
            connectionTime := mkRat connectionTime (1000 * 60 * 60),
            originalRoutes := [firstLeg.id, secondLeg.id],
            distance := qAdd firstLeg.distance secondLeg.distance,
            transferCount := qAdd (qAdd firstLeg.transferCount secondLeg.transferCount) (qOfInt 1),
            components := [firstLeg.id, secondLeg.id] }
  | _, _ => none

/-- One step of the airportFrequency accumulation: count plus one, or a
new entry appended (JS object keys keep insertion order). -/
def bumpFrequency (acc : List (String × Nat)) (airport : String) : List (String × Nat) :=
  if acc.any (fun e => e.1 == airport) then
    acc.map (fun e => if e.1 == airport then (e.1, e.2 + 1) else e)
  else acc ++ [(airport, 1)]

/-- The airportFrequency object of identifyHubAirports: occurrences of
each intermediate airport (truthy and distinct from origin and
destination), in first-appearance order. -/
def airportFrequency (routes : List Route) («from» «to» : String) : List (String × Nat) :=
  routes.foldl (fun acc route =>
    route.segments.foldl (fun acc2 segment =>
      let acc3 :=
        if segment.«from» ≠ "" ∧ segment.«from» ≠ «from» ∧ segment.«from» ≠ «to» then
          bumpFrequency acc2 segment.«from»
        else acc2
      if segment.«to» ≠ "" ∧ segment.«to» ≠ «from» ∧ segment.«to» ≠ «to» then
        bumpFrequency acc3 segment.«to»
      else acc3) acc) []

/-- identifyHubAirports: sort the frequency entries descending (the JS
comparator b - a under the stable ES2019 Array sort, hence mergeSort),
keep known hubs or airports seen at least three times, cap at ten. -/
def identifyHubAirports (routes : List Route) («from» «to» : String) : List String :=
  let freq := airportFrequency routes «from» «to»
  let sortedAirports := (freq.mergeSort (fun a b => b.2 ≤ a.2)).map (fun e => e.1)
  let hubs := sortedAirports.filter (fun airport =>
    config_africa_hubAirports.contains airport || ((freq.lookup airport).getD 0) ≥ 3)
  hubs.take 10

/-- The origin-to-hub bucket of groupRoutesByHub (push order is route
order, hence a filter). -/
def routesToHub (routes : List Route) («from» hub : String) : List Route :=
  routes.filter (fun route =>
    match route.segments with
    | [] => false
    | first :: rest =>
      first.«from» == «from» && ((first :: rest).getLast (List.cons_ne_nil _ _)).«to» == hub)

/-- The hub-to-destination bucket of groupRoutesByHub. -/
def routesFromHub (routes : List Route) (hub «to» : String) : List Route :=
  routes.filter (fun route =>
    match route.segments with
    | [] => false
    | first :: rest =>
      first.«from» == hub && ((first :: rest).getLast (List.cons_ne_nil _ _)).«to» == «to»)

/-- Whether groupRoutesByHub created an entry for this hub (some route
matched one of the two bucket conditions); the stitching loop skips hubs
with no entry. -/
def hubHasGroup (routes : List Route) («from» «to» hub : String) : Bool :=
  routes.any (fun route =>
    match route.segments with
    | [] => false
    | first :: rest =>
      let last := (first :: rest).getLast (List.cons_ne_nil _ _)
      (first.«from» == «from» && last.«to» == hub) ||
      (first.«from» == hub && last.«to» == «to»))

/-- generateCombinations: cap the cross product by combining at most
ceil(maxCombinations / max(lengths)) from each side.  With two empty
inputs the JS bound is Infinity and the loops still run zero times, the
m = 0 branch here. -/
def generateCombinations (routesA routesB : List Route) (maxCombinations : Nat) :
    List (Route × Route) :=
  let m := max routesA.length routesB.length
  if m = 0 then []
  else
    let maxPerRoute := (maxCombinations + m - 1) / m
    (routesA.take (min routesA.length maxPerRoute)).flatMap (fun a =>
      (routesB.take (min routesB.length maxPerRoute)).map (fun b => (a, b)))

/-- The first segment's origin, when there is a segment. -/
def firstFrom (route : Route) : Option String := route.segments.head?.map (fun s => s.«from»)

/-- The last segment's destination, when there is a segment. -/
def lastTo (route : Route) : Option String := route.segments.getLast?.map (fun s => s.«to»)

/-- One leg filter of generateMultiHubRoutes: routes running a to b. -/
def legRoutes (routes : List Route) (a b : String) : List Route :=
  routes.filter (fun r => firstFrom r == some a && lastTo r == some b)

/-- The trimmed copy of a partial stitched route that
generateMultiHubRoutes builds before the second stitch: only id,
airlines, segments, totalPrice, currency and totalDuration are carried
over (the remaining JS keys are absent, the defaults here). -/
def partialRouteOf (p : Route) : Route :=
  { id := p.id, airlines := p.airlines, segments := p.segments,
    totalPrice := p.totalPrice, currency := p.currency, totalDuration := p.totalDuration }

/-- The candidate (hub1, hub2, leg1, leg2, leg3) tuples of
generateMultiHubRoutes, in loop order: ordered hub index pairs (i distinct
from j) over the first five intermediate airports (first-appearance
order, deduplicated), then up to min(3, bucket sizes) routes per leg. -/
def multiHubCandidates (routes : List Route) («from» «to» : String) :
    List (String × String × Route × Route × Route) :=
  let allAirports :=
    (routes.flatMap (fun r => r.segments.flatMap (fun s => [s.«from», s.«to»]))).eraseDups
  let airports := allAirports.filter (fun a => a != «from» && a != «to»)
  let top := airports.take 5
  top.enum.flatMap (fun ie =>
    top.enum.flatMap (fun je =>
      if ie.1 = je.1 then []
      else
        let leg1Routes := legRoutes routes «from» ie.2
        let leg2Routes := legRoutes routes ie.2 je.2
        let leg3Routes := legRoutes routes je.2 «to»
        let maxCombos := min 3 (min leg1Routes.length (min leg2Routes.length leg3Routes.length))
        (leg1Routes.take maxCombos).flatMap (fun r1 =>
          (leg2Routes.take maxCombos).flatMap (fun r2 =>
            (leg3Routes.take maxCombos).map (fun r3 => (ie.2, je.2, r1, r2, r3))))))

/-- One multi-hub attempt: stitch leg1 with leg2, rebuild the trimmed
route object, stitch with leg3, then tag multiHub and the hub chain. -/
def multiHubStitch : String × String × Route × Route × Route → Option Route
  | (hub1, hub2, route1, route2, route3) =>
    match stitchTwoRoutes route1 route2 with
    | none => none
    | some p =>
      match stitchTwoRoutes (partialRouteOf p) route3 with
      | none => none
      | some finalRoute => some { finalRoute with multiHub := true, hubs := [hub1, hub2] }

/-- generateMultiHubRoutes.  The early return at ten results equals
taking the first ten successful stitches in candidate order.  A route
whose segments array is empty would make the JS leg filters throw on
segments[0].from, caught by the surrounding try with zero results
accumulated; the guard reproduces that outcome (when no candidate pair
exists the loops never run and the JS result is the same empty list). -/
def generateMultiHubRoutes (routes : List Route) («from» «to» : String) : List Route :=
  if routes.any (fun r => r.segments.isEmpty) then []
  else ((multiHubCandidates routes «from» «to»).filterMap multiHubStitch).take 10

/-- generateStitchedRoutes: per-hub pairwise combinations (skipping hubs
without a group entry), each pair stitched, then the multi-hub routes.
The surrounding JS try/catch has nothing left to catch here. -/
def generateStitchedRoutes (directRoutes : List Route) («from» «to» : String) : List Route :=
  let hubAirports := identifyHubAirports directRoutes «from» «to»
  let pairStitched := hubAirports.flatMap (fun hub =>
    if hubHasGroup directRoutes «from» «to» hub then
      (generateCombinations (routesToHub directRoutes «from» hub)
        (routesFromHub directRoutes hub «to») config_limits_maxStitchedRoutes).filterMap
        (fun c => stitchTwoRoutes c.1 c.2)
    else [])
  pairStitched ++ generateMultiHubRoutes directRoutes «from» «to»

/-! ### deduplicateRoutes.  The JS signature is the string
base_price_duration, where base joins the segment descriptors, or falls
back to the route id, or to Math.random().toString().  Sig models that
string componentwise: the numeric price and duration parts contain no
underscore, so component equality coincides with string equality, and the
random fallback is a fresh tag (the element's index in the pass) distinct
from every string, the model of a fresh random on each call. -/

inductive SigBase where
  | det (s : String)
  | rnd (n : Nat)
deriving DecidableEq, Repr

structure Sig where
  base : SigBase
  price : Rat
  dur : Rat
deriving DecidableEq, Repr

/-- The deterministic part of the signature base: the joined segment
descriptors when there are segments, else a truthy id. -/
def detSigBase (route : Route) : Option String :=
  if route.segments ≠ [] then
    some (String.intercalate "_" (route.segments.map (fun s =>
      s.airline ++ s.flightNumber ++ s.«from» ++ s.«to»)))
  else if route.id ≠ "" then some route.id
  else none

/-- The full signature of the route at position i of the pass. -/
def routeSignature (i : Nat) (route : Route) : Sig :=
  { base := match detSigBase route with
      | some s => SigBase.det s
      | none => SigBase.rnd i,
    price := route.totalPrice,
    dur := route.totalDuration }

/-- The deduplication loop: seen signatures accumulate, first seen wins. -/
def dedupGo : Nat → List Sig → List Route → List Route
  | _, _, [] => []
  | i, seen, route :: rest =>
    let signature := routeSignature i route
    if signature ∈ seen then dedupGo (i + 1) seen rest
    else route :: dedupGo (i + 1) (signature :: seen) rest

def deduplicateRoutes (routes : List Route) : List Route := dedupGo 0 [] routes

/-- The deterministic signature of a route, when it has one (proof-side
companion of routeSignature). -/
def detSig (route : Route) : Option Sig :=
  (detSigBase route).map (fun s =>
    { base := SigBase.det s, price := route.totalPrice, dur := route.totalDuration })

/-- Two routes whose deterministic signatures, if any, differ. -/
def DedupDistinct (a b : Route) : Prop :=
  ∀ s, detSig a = some s → detSig b ≠ some s

/-! ### PriceNormalizer (unnamed source file, part_002 of the
repository). -/

def priceNormalizer_defaultCurrency : String := "ZAR"

def baggageFees : List (String × Rat) :=
  [("economy", 20), ("premium_economy", 30), ("business", 40), ("first", 50)]

def bookingFees : List (String × Rat) :=
  [("kiwi", 5), ("travelpayouts", 3), ("skyscanner", 4), ("virtual-interline", 10)]

def taxRate : Rat := mkRat 15 100

/-- calculateBaggageFee: per-cabin base fee (economy when the cabin is
unknown), all bags charged in economy, one free in premium economy, two
free otherwise. -/
def calculateBaggageFee (bagsCount : Nat) (cabinClass : String) : Rat :=
  if bagsCount = 0 then 0
  else
    let baseFee := (baggageFees.lookup cabinClass).getD 20
    if cabinClass = "economy" then qMul (qOfInt (bagsCount : Int)) baseFee
    else if cabinClass = "premium_economy" then qMul (qOfInt ((bagsCount - 1 : Nat) : Int)) baseFee
    else qMul (qOfInt ((bagsCount - 2 : Nat) : Int)) baseFee

/-- calculateBookingFee: the virtual-interline fee, else the per-engine
fee with the travelpayouts fallback. -/
def calculateBookingFee (bookingEngine : String) (isVirtualInterline : Bool) : Rat :=
  if isVirtualInterline then (bookingFees.lookup "virtual-interline").getD 0
  else (bookingFees.lookup bookingEngine).getD ((bookingFees.lookup "travelpayouts").getD 0)

/-- User preferences handed from the search parameters to the
normalizer. -/
structure UserPrefs where
  passengers : Nat := 0
  bags : Nat := 0
  cabinClass : String := ""
deriving DecidableEq, Repr

/-- The external collaborators and environment-derived configuration of
the pipeline: the feature flag and cache switch from config, the Redis
cache content at search time, the exchange-rate conversion (an Except:
the service may throw), and the per-provider affiliate-link builders
(generateVirtualInterlineLink builds a URL from the component references;
its URL construction is a collaborator here). -/
structure Env where
  virtualInterlining : Bool
  cacheEnabled : Bool
  cache : String → Option (List Route)
  convert : Rat → String → String → Except Unit Rat
  kiwiLink : Route → Option String
  travelpayoutsLink : Route → Option String
  skyscannerLink : Route → Option String
  viLinkBuilder : Route → Option String

/-- addAllFees on a non-null route: convert to ZAR when needed (the catch
returns the route unmodified when the conversion throws; nothing after it
throws), then baggage fee, booking fee, 15 percent tax on the converted
base, final price and display string. -/
def addAllFees (env : Env) (userPreferences : UserPrefs) (route : Route) : Route :=
  let conv :=
    if route.currency ≠ priceNormalizer_defaultCurrency then
      env.convert route.totalPrice route.currency priceNormalizer_defaultCurrency
    else Except.ok route.totalPrice
  match conv with
  | Except.error _ => route
  | Except.ok totalPriceZAR =>
    let baggageFee := calculateBaggageFee userPreferences.bags
      (if userPreferences.cabinClass = "" then "economy" else userPreferences.cabinClass)
    let bookingFee := calculateBookingFee route.bookingEngine route.virtualInterline
    let taxAmount := qMul totalPriceZAR taxRate
    let finalPrice := qAdd (qAdd (qAdd totalPriceZAR baggageFee) bookingFee) taxAmount
    { route with
      totalPriceZAR := totalPriceZAR,
      baggageFeeZAR := baggageFee,
      bookingFeeZAR := bookingFee,
      taxAmountZAR := taxAmount,
      finalPriceZAR := finalPrice,
      displayPrice := "R" ++ toString (qRound finalPrice) }

/-- normalizeRoutes: per route, addAllFees; a null route yields null and
is not pushed; the per-iteration catch has nothing left to catch because
addAllFees absorbs its own failures. -/
def normalizeRoutes (env : Env) (userPreferences : UserPrefs)
    (routes : List (Option Route)) : List Route :=
  routes.filterMap (fun route => route.map (addAllFees env userPreferences))

/-- The final-price fallback chain finalPriceZAR, totalPriceZAR,
totalPrice, 0 (each JS or-else skips a falsy, that is zero or absent,
value), shared by sortByPrice, filterByMaxPrice and addAffiliateLinks. -/
def effectivePrice (route : Route) : Rat :=
  if route.finalPriceZAR ≠ 0 then route.finalPriceZAR
  else if route.totalPriceZAR ≠ 0 then route.totalPriceZAR
  else if route.totalPrice ≠ 0 then route.totalPrice
  else 0

/-- sortByPrice: the ES2019 Array sort is stable and the comparator is
priceA - priceB, so the result is the unique stable ascending order by
effective price; mergeSort is that sort. -/
def sortByPrice (routes : List Route) : List Route :=
  routes.mergeSort (fun a b => qLe (effectivePrice a) (effectivePrice b))

/-- filterByMaxPrice: effective price at most the cap. -/
def filterByMaxPrice (routes : List Route) (maxPriceZAR : Rat) : List Route :=
  routes.filter (fun route => qLe (effectivePrice route) maxPriceZAR)

/-! ### RouteStitcher orchestration (findCheapestRoutes and the provider
wrappers). -/

/-- generateVirtualInterlineLink: null below two components, else the
URL built from the component references (external builder). -/
def generateVirtualInterlineLink (env : Env) (route : Route) : Option String :=
  if route.components.length < 2 then none
  else env.viLinkBuilder route

/-- addAffiliateLinks: per route, the virtual-interline builder or the
booking-engine specific builder (travelpayouts as default), the deep-link
fallback, and the display price over the shared fallback chain.  The JS
catch branch pushes the same object with a null link; the modeled
builders do not throw. -/
def addAffiliateLinks (env : Env) (routes : List Route) : List Route :=
  routes.map (fun route =>
    let affiliateLink :=
      if route.virtualInterline then generateVirtualInterlineLink env route
      else if route.bookingEngine = "kiwi" then env.kiwiLink route
      else if route.bookingEngine = "travelpayouts" then env.travelpayoutsLink route
      else if route.bookingEngine = "skyscanner" then env.skyscannerLink route
      else env.travelpayoutsLink route
    let affiliateLink :=
      match affiliateLink with
      | none => if route.deepLink ≠ "" then some route.deepLink else none
      | some l => some l
    { route with
      affiliateLink := affiliateLink,
      displayPrice := formatPrice (effectivePrice route) "ZAR" })

/-- searchKiwi: the provider client call is an input (an Except: the
transport may fail); successes are tagged with source and bookingEngine,
and the catch turns a failure into an empty list. -/
def searchKiwi (apiResults : Except Unit (List Route)) : Except Unit (List Route) :=
  match apiResults with
  | Except.ok results =>
    Except.ok (results.map (fun r => { r with source := "kiwi", bookingEngine := "kiwi" }))
  | Except.error _ => Except.ok []

/-- searchTravelpayouts, same shape as searchKiwi. -/
def searchTravelpayouts (apiResults : Except Unit (List Route)) : Except Unit (List Route) :=
  match apiResults with
  | Except.ok results =>
    Except.ok (results.map (fun r =>
      { r with source := "travelpayouts", bookingEngine := "travelpayouts" }))
  | Except.error _ => Except.ok []

/-- searchSkyscanner, same shape as searchKiwi. -/
def searchSkyscanner (apiResults : Except Unit (List Route)) : Except Unit (List Route) :=
  match apiResults with
  | Except.ok results =>
    Except.ok (results.map (fun r =>
      { r with source := "skyscanner", bookingEngine := "skyscanner" }))
  | Except.error _ => Except.ok []

/-- The Promise.allSettled fan-in of findCheapestRoutes: a fulfilled
provider contributes its list, a rejected one is logged and contributes
nothing. -/
def settledValue (settled : Except Unit (List Route)) : List Route :=
  match settled with
  | Except.ok value => value
  | Except.error _ => []

/-- Steps 3 to 9 of findCheapestRoutes on the merged direct routes:
stitch when the feature is on and a direct route exists, deduplicate,
validate with the instance connection bounds, normalize, sort, cap at
maxRoutesPerSearch, attach links. -/
def searchPipeline (env : Env) (params : SearchParams) (allDirectRoutes : List Route) :
    List Route :=
  let allRoutes :=
    if env.virtualInterlining ∧ allDirectRoutes ≠ [] then
      allDirectRoutes ++ generateStitchedRoutes allDirectRoutes params.«from» params.«to»
    else allDirectRoutes
  let allRoutes := deduplicateRoutes allRoutes
  let allRoutes := allRoutes.filter (fun route =>
    validateRoute route config_limits_minConnectionTime config_limits_maxConnectionTime)
  let normalizedRoutes := normalizeRoutes env
    { passengers := params.passengers, bags := params.bags, cabinClass := params.cabinClass }
    (allRoutes.map some)
  let sortedRoutes := sortByPrice normalizedRoutes
  let topRoutes := sortedRoutes.take config_limits_maxRoutesPerSearch
  addAffiliateLinks env topRoutes

/-- findCheapestRoutes: cache lookup first (a hit returns immediately),
then the three provider queries (the allSettled join never rejects), the
fan-in, and the pipeline.  The trailing cache write has no effect on the
returned value; the top-level catch is unreachable because every stage
absorbs its own failures here. -/
def findCheapestRoutes (env : Env) (params : SearchParams)
    (kiwiApiResults travelpayoutsApiResults skyscannerApiResults : Except Unit (List Route)) :
    List Route :=
  let cacheKey := generateCacheKey params
  match (if env.cacheEnabled then env.cache cacheKey else none) with
  | some cached => cached
  | none =>
    let allDirectRoutes :=
      settledValue (searchKiwi kiwiApiResults) ++
      settledValue (searchTravelpayouts travelpayoutsApiResults) ++
      settledValue (searchSkyscanner skyscannerApiResults)
    searchPipeline env params allDirectRoutes

/-! ### Statement-side definitions for the amended claim C4: the
minimum-connection policy table as the code implements it, and the
effective maximum. -/

/-- The minimum connection milliseconds that validateConnection enforces:
virtual interline 240 min, else large hub 120 min, else international 90
min, else 60 min (the same-city different-airport tier of the spec is not
part of this chain). -/
def policyMinConnectionMs (isVirtualInterline : Bool) (segmentA segmentB : Segment) : Int :=
  if isVirtualInterline then 240 * 60 * 1000
  else if isLargeHub segmentA.«to» then 120 * 60 * 1000
  else if isInternationalConnection segmentA segmentB then 90 * 60 * 1000
  else 60 * 60 * 1000

/-- The maximum connection milliseconds: the caller value, or 24 h when
that is absent (falsy). -/
def policyMaxConnectionMs (maxConnectionTimeMs : Int) : Int :=
  if maxConnectionTimeMs = 0 then 1440 * 60 * 1000 else maxConnectionTimeMs

/-! ### Concrete fixtures used by counterexamples and witnesses. -/

/-- JNB to ADD, four hours in the air. -/
def c1segA : Segment :=
  { «from» := "JNB", «to» := "ADD", airline := "ET", flightNumber := "808",
    departure := 1700000000000, arrival := 1700014400000 }

/-- ADD to CPT departing 120 minutes after c1segA arrives. -/
def c1segB120 : Segment :=
  { «from» := "ADD", «to» := "CPT", airline := "ET", flightNumber := "845",
    departure := 1700021600000, arrival := 1700043200000 }

/-- ADD to CPT departing 300 minutes after c1segA arrives. -/
def c1segB300 : Segment :=
  { «from» := "ADD", «to» := "CPT", airline := "ET", flightNumber := "845",
    departure := 1700032400000, arrival := 1700054000000 }

def c1routeA : Route :=
  { id := "A1", totalPrice := 2000, currency := "ZAR", segments := [c1segA] }

def c1routeB120 : Route :=
  { id := "B1", totalPrice := 1500, currency := "ZAR", segments := [c1segB120] }

def c1routeB300 : Route :=
  { id := "B2", totalPrice := 1500, currency := "ZAR", segments := [c1segB300] }

/-- A domestic two-leg route JNB to DUR to CPT with a two-hour connection
that passes every validator stage. -/
def c3route : Route :=
  { segments :=
      [{ «from» := "JNB", «to» := "DUR", airline := "FA", flightNumber := "101",
         departure := 1700000000000, arrival := 1700003600000 },
       { «from» := "DUR", «to» := "CPT", airline := "FA", flightNumber := "202",
         departure := 1700010800000, arrival := 1700018000000 }] }

/-- Arrives at LHR. -/
def c4segA : Segment :=
  { «from» := "JNB", «to» := "LHR", airline := "BA", flightNumber := "56",
    departure := 1700000000000, arrival := 1700039600000 }

/-- Departs from LGW 200 minutes after c4segA arrives. -/
def c4segB : Segment :=
  { «from» := "LGW", «to» := "JNB", airline := "BA", flightNumber := "2037",
    departure := 1700051600000, arrival := 1700091200000 }

/-- Departs from ADD (a large hub) 180 minutes after c1segA arrives
there. -/
def c4segB2 : Segment :=
  { «from» := "ADD", «to» := "CPT", airline := "ET", flightNumber := "845",
    departure := 1700025200000, arrival := 1700046800000 }

/-- An itinerary transiting LHR: its arrival airport equals the next
departure airport. -/
def c5segments : List Segment :=
  [{ «from» := "JNB", «to» := "LHR", airline := "BA", flightNumber := "56",
     departure := 1700000000000, arrival := 1700039600000 },
   { «from» := "LHR", «to» := "CPT", airline := "BA", flightNumber := "59",
     departure := 1700060000000, arrival := 1700100000000 }]

/-- An environment with the cache off and identity collaborators. -/
def envNoCache : Env :=
  { virtualInterlining := true, cacheEnabled := false,
    cache := fun _ => none,
    convert := fun amount _ _ => Except.ok amount,
    kiwiLink := fun _ => none, travelpayoutsLink := fun _ => none,
    skyscannerLink := fun _ => none, viLinkBuilder := fun _ => none }

/-- As envNoCache, with a conversion service that always throws. -/
def envFailingConvert : Env :=
  { envNoCache with convert := fun _ _ _ => Except.error () }

/-- A route priced in a foreign currency, so that normalization must
convert. -/
def c8route : Route := { id := "r8", totalPrice := 100, currency := "USD" }

def c2params : SearchParams :=
  { «from» := "JNB", «to» := "CPT", date := "2024-12-25", passengers := 1,
    cabinClass := "M", currency := "ZAR", tripType := "oneway" }

def c9params1 : SearchParams :=
  { «from» := "JNB", «to» := "CPT", date := "2024-12-25", returnDate := "",
    passengers := 2, bags := 0, cabinClass := "M", currency := "ZAR",
    tripType := "oneway" }

/-- Same six key fields as c9params1, different cabin class, bag count
and trip type. -/
def c9params2 : SearchParams :=
  { c9params1 with cabinClass := "business", bags := 2, tripType := "return" }

def c9cachedResult : List Route := [c1routeA]

/-- An environment whose cache holds a result under the key of
c9params1. -/
def c9env : Env :=
  { envNoCache with
    cacheEnabled := true,
    cache := fun k => if k = generateCacheKey c9params1 then some c9cachedResult else none }

/-! ### Theorems.  Helper lemmas first, then one theorem per claim (with
counterexamples and witnesses where the status requires them). -/

/-- Bridge from the executable comparison to the Rat order. -/
theorem qLe_iff {a b : Rat} : qLe a b = true ↔ a ≤ b := by
  rw [Rat.le_def]; exact decide_eq_true_iff

/-- When the arrival airport equals the next departure airport, no
multi-airport-city entry fires (each requires the two to differ). -/
theorem checkAirportChange_self (segmentA segmentB : Segment)
    (h : segmentA.«to» = segmentB.«from») :
    (checkAirportChange segmentA segmentB).requiresChange = false := by
  unfold checkAirportChange
  have hfind : multiAirportCities.find? (fun e =>
      e.2.contains segmentA.«to» && e.2.contains segmentB.«from» &&
      segmentA.«to» != segmentB.«from») = none := by
    apply List.find?_eq_none.mpr
    intro e _
    simp [h]
  rw [hfind]

/-- A valid connection verdict forces the airports to match. -/
theorem validateConnection_valid_imp_match (segmentA segmentB : Segment)
    (m M : Int) (vi : Bool)
    (h : (validateConnection segmentA segmentB m M vi).valid = true) :
    segmentA.«to» = segmentB.«from» := by
  by_contra hne
  simp [validateConnection, hne] at h

theorem routeSignature_eq_of_detSig (i : Nat) (r : Route) (s : Sig)
    (h : detSig r = some s) : routeSignature i r = s := by
  unfold detSig at h
  cases hb : detSigBase r with
  | none => rw [hb] at h; simp at h
  | some str =>
    rw [hb] at h
    simp only [Option.map_some', Option.some.injEq] at h
    simp [routeSignature, hb, ← h]

theorem routeSignature_eq_rnd (i : Nat) (r : Route)
    (h : detSig r = none) : routeSignature i r =
      { base := SigBase.rnd i, price := r.totalPrice, dur := r.totalDuration } := by
  unfold detSig at h
  cases hb : detSigBase r with
  | none => simp [routeSignature, hb]
  | some str => rw [hb] at h; simp at h

theorem detSig_base_det (r : Route) (s : Sig) (h : detSig r = some s) :
    ∃ str, s.base = SigBase.det str := by
  unfold detSig at h
  cases hb : detSigBase r with
  | none => rw [hb] at h; simp at h
  | some str =>
    rw [hb] at h
    simp only [Option.map_some', Option.some.injEq] at h
    exact ⟨str, by rw [← h]⟩

/-- The output of the deduplication loop has no deterministic signature in
the seen set and pairwise distinct deterministic signatures. -/
theorem dedupGo_spec : ∀ (Y : List Route) (i : Nat) (seen : List Sig),
    (∀ r ∈ dedupGo i seen Y, ∀ s, detSig r = some s → s ∉ seen) ∧
    (dedupGo i seen Y).Pairwise DedupDistinct
  | [], i, seen => by
    constructor
    · intro r hr
      simp [show dedupGo i seen [] = [] from rfl] at hr
    · simp [show dedupGo i seen [] = [] from rfl]
  | r :: rest, i, seen => by
    have IH := dedupGo_spec rest
    by_cases hmem : routeSignature i r ∈ seen
    · simpa [dedupGo, hmem] using IH (i + 1) seen
    · have IH2 := IH (i + 1) (routeSignature i r :: seen)
      simp only [dedupGo, if_neg hmem]
      constructor
      · intro r2 hr2 s hs
        rcases List.mem_cons.mp hr2 with h1 | h1
        · subst h1
          rw [routeSignature_eq_of_detSig i r2 s hs] at hmem
          exact hmem
        · exact fun hcon => (IH2.1 r2 h1 s hs) (List.mem_cons_of_mem _ hcon)
      · refine List.Pairwise.cons ?_ IH2.2
        intro r2 hr2 s hs hs2
        have := IH2.1 r2 hr2 s hs2
        rw [routeSignature_eq_of_detSig i r s hs] at this
        exact this (List.mem_cons_self _ _)

/-- The deduplication loop is the identity on a list whose deterministic
signatures avoid the seen set and are pairwise distinct, when the seen set
only holds random tags of earlier positions. -/
theorem dedupGo_id : ∀ (Y : List Route) (i : Nat) (seen : List Sig),
    (∀ s ∈ seen, ∀ j, s.base = SigBase.rnd j → j < i) →
    (∀ r ∈ Y, ∀ s, detSig r = some s → s ∉ seen) →
    Y.Pairwise DedupDistinct →
    dedupGo i seen Y = Y
  | [], _, _, _, _, _ => rfl
  | r :: rest, i, seen, h1, h2, h3 => by
    have hnot : routeSignature i r ∉ seen := by
      cases hd : detSig r with
      | some s =>
        rw [routeSignature_eq_of_detSig i r s hd]
        exact h2 r (List.mem_cons_self _ _) s hd
      | none =>
        rw [routeSignature_eq_rnd i r hd]
        intro hcon
        have := h1 _ hcon i rfl
        omega
    simp only [dedupGo, if_neg hnot]
    congr 1
    apply dedupGo_id rest (i + 1) (routeSignature i r :: seen)
    · intro s hs j hj
      rcases List.mem_cons.mp hs with h | h
      · subst h
        cases hd : detSig r with
        | some s2 =>
          obtain ⟨str, hstr⟩ := detSig_base_det r s2 hd
          rw [routeSignature_eq_of_detSig i r s2 hd, hstr] at hj
          simp at hj
        | none =>
          rw [routeSignature_eq_rnd i r hd] at hj
          simp at hj
          omega
      · have := h1 s h j hj
        omega
    · intro r2 hr2 s hs hcon
      rcases List.mem_cons.mp hcon with h | h
      · cases hd : detSig r with
        | some s2 =>
          have hrel := List.rel_of_pairwise_cons h3 hr2
          have hss : s = routeSignature i r := h
          rw [routeSignature_eq_of_detSig i r s2 hd] at hss
          exact hrel s2 hd (hss ▸ hs)
        | none =>
          obtain ⟨str, hstr⟩ := detSig_base_det r2 s hs
          have hss : s = routeSignature i r := h
          rw [routeSignature_eq_rnd i r hd] at hss
          rw [hss] at hstr
          simp at hstr
      · exact h2 r2 (List.mem_cons_of_mem _ hr2) s hs h
    · exact h3.tail

theorem effPrice_le_trans : ∀ a b c : Route,
    qLe (effectivePrice a) (effectivePrice b) →
    qLe (effectivePrice b) (effectivePrice c) →
    qLe (effectivePrice a) (effectivePrice c) := by
  intro a b c hab hbc
  rw [qLe_iff] at *
  exact le_trans hab hbc

theorem effPrice_le_total : ∀ a b : Route,
    qLe (effectivePrice a) (effectivePrice b) || qLe (effectivePrice b) (effectivePrice a) := by
  intro a b
  rcases le_total (effectivePrice a) (effectivePrice b) with h | h
  · simp [qLe_iff.mpr h]
  · simp [qLe_iff.mpr h]

/-- C1, counterexample: with A arriving at the shared hub ADD and B
departing exactly 120 minutes later (otherwise valid: matching airports,
distinct ids, nonempty segments), stitchTwoRoutes returns a non-null
stitched itinerary, not null as the claim states: the minimum it enforces
is config.limits.minConnectionTime (2 h), not the 240-minute
virtual-interline minimum. -/
theorem stitchTwoRoutes_counterexample_120min :
    c1segB120.departure - c1segA.arrival = 120 * 60 * 1000 ∧
    (stitchTwoRoutes c1routeA c1routeB120).isSome = true := by decide

/-- C1, amended: for routes with a shared connection airport and distinct
ids, stitchTwoRoutes succeeds exactly when the connection gap lies within
the config bounds [minConnectionTime, maxConnectionTime] = [120 min,
24 h]; in particular both the 120-minute and the 300-minute gap succeed,
and only gaps below 120 minutes (or above 24 hours) yield null. -/
theorem stitchTwoRoutes_gap_policy (firstLeg secondLeg : Route)
    (lastA firstB : Segment)
    (hA : firstLeg.segments.getLast? = some lastA)
    (hB : secondLeg.segments.head? = some firstB)
    (hmatch : lastA.«to» = firstB.«from»)
    (hid : firstLeg.id ≠ secondLeg.id) :
    (stitchTwoRoutes firstLeg secondLeg).isSome = true ↔
      (config_limits_minConnectionTime ≤ firstB.departure - lastA.arrival ∧
       firstB.departure - lastA.arrival ≤ config_limits_maxConnectionTime) := by
  match hfs : firstLeg.segments, hss : secondLeg.segments with
  | [], _ =>
    rw [hfs] at hA
    simp at hA
  | _ :: _, [] =>
    rw [hss] at hB
    simp at hB
  | f1 :: frest, s1 :: srest =>
    have hlast : (f1 :: frest).getLast (List.cons_ne_nil _ _) = lastA := by
      rw [hfs, List.getLast?_eq_getLast (f1 :: frest) (List.cons_ne_nil _ _)] at hA
      exact Option.some.inj hA
    have hhead : s1 = firstB := by
      rw [hss] at hB
      exact Option.some.inj hB
    unfold stitchTwoRoutes
    rw [hfs, hss]
    simp only [hlast, hhead]
    rw [if_neg (by simp [hmatch])]
    simp only [config_limits_minConnectionTime, config_limits_maxConnectionTime]
    split_ifs with h1 h2 <;> simp_all <;> omega

/-- C1, witness for the amended theorem: the 300-minute pair stitches. -/
theorem stitchTwoRoutes_gap_policy_witness :
    (stitchTwoRoutes c1routeA c1routeB300).isSome = true :=
  (stitchTwoRoutes_gap_policy c1routeA c1routeB300 c1segA c1segB300 rfl rfl rfl
    (by decide)).mpr (by decide)

/-- C2: when one of the three provider calls fails (or times out) and the
other two succeed, findCheapestRoutes raises no error (it is total on the
cache-miss path) and returns exactly what the pipeline produces on the
tagged itineraries of the two successful providers alone. -/
theorem findCheapestRoutes_provider_failure (env : Env) (params : SearchParams)
    (hmiss : env.cacheEnabled = false ∨ env.cache (generateCacheKey params) = none)
    (e : Unit) (l1 l2 : List Route) :
    (findCheapestRoutes env params (Except.error e) (Except.ok l1) (Except.ok l2) =
      searchPipeline env params
        (l1.map (fun r => { r with source := "travelpayouts", bookingEngine := "travelpayouts" }) ++
         l2.map (fun r => { r with source := "skyscanner", bookingEngine := "skyscanner" }))) ∧
    (findCheapestRoutes env params (Except.ok l1) (Except.error e) (Except.ok l2) =
      searchPipeline env params
        (l1.map (fun r => { r with source := "kiwi", bookingEngine := "kiwi" }) ++
         l2.map (fun r => { r with source := "skyscanner", bookingEngine := "skyscanner" }))) ∧
    (findCheapestRoutes env params (Except.ok l1) (Except.ok l2) (Except.error e) =
      searchPipeline env params
        (l1.map (fun r => { r with source := "kiwi", bookingEngine := "kiwi" }) ++
         l2.map (fun r => { r with source := "travelpayouts", bookingEngine := "travelpayouts" }))) := by
  have hc : (if env.cacheEnabled then env.cache (generateCacheKey params) else none) = none := by
    rcases hmiss with h | h
    · simp [h]
    · cases henb : env.cacheEnabled <;> simp [h]
  refine ⟨?_, ?_, ?_⟩ <;>
    simp [findCheapestRoutes, hc, searchKiwi, searchTravelpayouts, searchSkyscanner,
      settledValue]

/-- C2, witness: a failing first provider next to one concrete result of
the second and none of the third. -/
theorem findCheapestRoutes_provider_failure_witness :
    envNoCache.cacheEnabled = false ∧
    findCheapestRoutes envNoCache c2params (Except.error ()) (Except.ok [c1routeA])
        (Except.ok []) =
      searchPipeline envNoCache c2params
        ([c1routeA].map (fun r =>
          { r with source := "travelpayouts", bookingEngine := "travelpayouts" }) ++
         ([] : List Route).map (fun r =>
          { r with source := "skyscanner", bookingEngine := "skyscanner" })) :=
  ⟨rfl, (findCheapestRoutes_provider_failure envNoCache c2params (Or.inl rfl) ()
    [c1routeA] []).1⟩

/-- C3: every itinerary accepted by validateRoute satisfies the
connectivity invariant: each segment's destination equals the next
segment's origin (the validator's connection check rejects any airport
mismatch). -/
theorem validateRoute_connectivity (route : Route) (minConnectionTimeMs maxConnectionTimeMs : Int)
    (h : validateRoute route minConnectionTimeMs maxConnectionTimeMs = true)
    (i : Nat) (hi : i + 1 < route.segments.length) :
    (route.segments.get ⟨i, Nat.lt_of_succ_lt hi⟩).«to» =
    (route.segments.get ⟨i + 1, hi⟩).«from» := by
  have hconn : ∀ p ∈ route.segments.zip route.segments.tail,
      (validateConnection p.1 p.2 minConnectionTimeMs maxConnectionTimeMs
        route.virtualInterline).valid = true := by
    unfold validateRoute at h
    split at h
    · simp at h
    · simp only [Bool.and_eq_true, List.all_eq_true] at h
      exact h.1.1.1.2
  have hz : i < (route.segments.zip route.segments.tail).length := by
    rw [List.length_zip, List.length_tail]
    omega
  have hmem := List.getElem_mem hz
  rw [List.getElem_zip] at hmem
  have := hconn _ hmem
  have heq := validateConnection_valid_imp_match _ _ _ _ _ this
  simpa [List.getElem_tail, List.get_eq_getElem] using heq

/-- C3, witness: a two-segment domestic route that passes the whole
validator, and its one adjacent pair connects. -/
theorem validateRoute_connectivity_witness :
    validateRoute c3route config_limits_minConnectionTime config_limits_maxConnectionTime = true ∧
    (c3route.segments.get ⟨0, by decide⟩).«to» = (c3route.segments.get ⟨1, by decide⟩).«from» :=
  ⟨by decide, validateRoute_connectivity c3route config_limits_minConnectionTime
    config_limits_maxConnectionTime (by decide) 0 (by decide)⟩

/-- C4, counterexample: a non-virtual-interline same-city
different-airport connection (arrive LHR, depart LGW) with a 200-minute
gap is rejected by validateConnection, not accepted: the airport-mismatch
check fires before any timing rule, so the 180-minute same-city tier of
the claim is unreachable. -/
theorem validateConnection_sameCity_counterexample :
    c4segA.«to» = "LHR" ∧ c4segB.«from» = "LGW" ∧
    c4segB.departure - c4segA.arrival = 200 * 60 * 1000 ∧
    (validateConnection c4segA c4segB config_limits_minConnectionTime
      config_limits_maxConnectionTime false).valid = false := by decide

/-- C4, amended: validateConnection rejects every pair with distinct
arrival and departure airports as an airport mismatch; on matching
airports it is valid exactly when the gap is nonnegative, at least the
priority minimum (virtual interline 240 min, else large hub 120 min, else
international 90 min, else domestic 60 min) and at most the
caller-or-default maximum.  There is no same-city tier. -/
theorem validateConnection_min_policy (segmentA segmentB : Segment)
    (isVirtualInterline : Bool) (minConnectionTimeMs maxConnectionTimeMs : Int) :
    (segmentA.«to» ≠ segmentB.«from» →
      (validateConnection segmentA segmentB minConnectionTimeMs maxConnectionTimeMs
        isVirtualInterline).valid = false) ∧
    (segmentA.«to» = segmentB.«from» →
      ((validateConnection segmentA segmentB minConnectionTimeMs maxConnectionTimeMs
          isVirtualInterline).valid = true ↔
        (0 ≤ segmentB.departure - segmentA.arrival ∧
         policyMinConnectionMs isVirtualInterline segmentA segmentB ≤
           segmentB.departure - segmentA.arrival ∧
         segmentB.departure - segmentA.arrival ≤ policyMaxConnectionMs maxConnectionTimeMs))) := by
  constructor
  · intro hne
    simp [validateConnection, hne]
  · intro heq
    have hac := checkAirportChange_self segmentA segmentB heq
    simp only [validateConnection, policyMinConnectionMs, policyMaxConnectionMs,
      minConnectionTimes, maxConnectionTimes, heq, hac, ne_eq, not_true_eq_false,
      if_false, Bool.false_eq_true, false_and, ite_false]
    split_ifs <;> simp_all <;> omega

/-- C4, witness: an ADD (large hub) connection with a 180-minute gap is
valid through the policy characterization. -/
theorem validateConnection_min_policy_witness :
    c1segA.«to» = c4segB2.«from» ∧
    (validateConnection c1segA c4segB2 config_limits_minConnectionTime
      config_limits_maxConnectionTime false).valid = true :=
  ⟨rfl, ((validateConnection_min_policy c1segA c4segB2 false
    config_limits_minConnectionTime config_limits_maxConnectionTime).2 rfl).mpr (by decide)⟩

/-- C5, code-bug evidence: an itinerary transiting LHR is NOT flagged by
validateVisaRequirements, although the United Kingdom is in the intended
visa-required set: getCountryFromAirport returns the ISO code GB while
the visaRequiredTransits list spells UK, so the UK entry (like CA, AU,
NZ) can never match. -/
theorem validateVisaRequirements_LHR_not_flagged :
    (c5segments.get ⟨0, by decide⟩).«to» = "LHR" ∧
    getCountryFromAirport "LHR" = "GB" ∧
    visaRequiredTransits.contains "GB" = false ∧
    (validateVisaRequirements c5segments).valid = true := by decide

/-- C6: deduplicateRoutes is idempotent (Math.random modeled as fresh
tags that never collide, per the source's effectively-never-dedup
fallback). -/
theorem deduplicateRoutes_idempotent (routes : List Route) :
    deduplicateRoutes (deduplicateRoutes routes) = deduplicateRoutes routes := by
  unfold deduplicateRoutes
  apply dedupGo_id
  · intro s hs
    simp at hs
  · intro r hr s hs
    simp
  · exact (dedupGo_spec routes 0 []).2

/-- C7: sortByPrice returns a permutation of its input, the effective
prices (finalPriceZAR, else totalPriceZAR, else totalPrice, else 0) are
non-decreasing, and routes of equal effective price keep their input
order (the filter at each price level is unchanged). -/
theorem sortByPrice_sorted_stable (routes : List Route) :
    (sortByPrice routes).Perm routes ∧
    (sortByPrice routes).Pairwise (fun a b => effectivePrice a ≤ effectivePrice b) ∧
    ∀ p : Rat, (sortByPrice routes).filter (fun r => effectivePrice r == p) =
      routes.filter (fun r => effectivePrice r == p) := by
  refine ⟨List.mergeSort_perm routes _, ?_, ?_⟩
  · exact (List.sorted_mergeSort effPrice_le_trans effPrice_le_total routes).imp
      (fun hab => qLe_iff.mp hab)
  · intro p
    have hmemB : ∀ r ∈ routes.filter (fun r => effectivePrice r == p),
        effectivePrice r = p := by
      intro r hr
      have := (List.mem_filter.mp hr).2
      exact beq_iff_eq.mp this
    have hBpair : (routes.filter (fun r => effectivePrice r == p)).Pairwise
        (fun a b => qLe (effectivePrice a) (effectivePrice b) = true) := by
      apply List.pairwise_of_forall_mem_list
      intro a ha b hb
      rw [qLe_iff, hmemB a ha, hmemB b hb]
    have hsub : List.Sublist (routes.filter (fun r => effectivePrice r == p))
        (sortByPrice routes) :=
      List.sublist_mergeSort effPrice_le_trans effPrice_le_total hBpair
        (List.filter_sublist routes)
    have heqself : (routes.filter (fun r => effectivePrice r == p)).filter
        (fun r => effectivePrice r == p) =
        routes.filter (fun r => effectivePrice r == p) := by
      apply List.filter_eq_self.mpr
      intro a ha
      exact beq_iff_eq.mpr (hmemB a ha)
    have hsub2 : List.Sublist (routes.filter (fun r => effectivePrice r == p))
        ((sortByPrice routes).filter (fun r => effectivePrice r == p)) := by
      have := List.Sublist.filter (fun r => effectivePrice r == p) hsub
      rwa [heqself] at this
    have hperm : List.Perm ((sortByPrice routes).filter (fun r => effectivePrice r == p))
        (routes.filter (fun r => effectivePrice r == p)) :=
      (List.mergeSort_perm routes _).filter _
    exact (List.Sublist.eq_of_length hsub2 hperm.length_eq.symm).symm

/-- C8: normalizeRoutes keeps exactly the non-null input routes (one
output per non-null input), and any route whose currency conversion
throws is returned unmodified, not dropped. -/
theorem normalizeRoutes_degrade_keeps_routes (env : Env) (prefs : UserPrefs)
    (routes : List (Option Route)) :
    (normalizeRoutes env prefs routes).length = (routes.filterMap id).length ∧
    ∀ r : Route, some r ∈ routes →
      r.currency ≠ "ZAR" →
      env.convert r.totalPrice r.currency "ZAR" = Except.error () →
      r ∈ normalizeRoutes env prefs routes := by
  constructor
  · unfold normalizeRoutes
    induction routes with
    | nil => rfl
    | cons o rest ih => cases o <;> simp [ih]
  · intro r hr hcur hconv
    have haddr : addAllFees env prefs r = r := by
      unfold addAllFees priceNormalizer_defaultCurrency
      simp [hcur, hconv]
    unfold normalizeRoutes
    exact List.mem_filterMap.mpr ⟨some r, hr, by simp [haddr]⟩

/-- C8, witness: a USD route under an always-throwing conversion service
survives normalization unmodified. -/
theorem normalizeRoutes_degrade_witness :
    c8route.currency ≠ "ZAR" ∧
    envFailingConvert.convert c8route.totalPrice c8route.currency "ZAR" = Except.error () ∧
    c8route ∈ normalizeRoutes envFailingConvert {} [some c8route] :=
  ⟨by decide, rfl,
    (normalizeRoutes_degrade_keeps_routes envFailingConvert {} [some c8route]).2 c8route
      (by simp) (by decide) rfl⟩

/-- C9: generateCacheKey reads only from, to, date, returnDate,
passengers and currency; two searches agreeing on those six fields share
a key, so the second is served the first one's cached result on a cache
hit, whatever its cabin class, bag count or trip type. -/
theorem generateCacheKey_ignores_cabin_bags_tripType (p1 p2 : SearchParams)
    (hfrom : p1.«from» = p2.«from») (hto : p1.«to» = p2.«to»)
    (hdate : p1.date = p2.date) (hret : p1.returnDate = p2.returnDate)
    (hpass : p1.passengers = p2.passengers) (hcur : p1.currency = p2.currency) :
    generateCacheKey p1 = generateCacheKey p2 ∧
    ∀ (env : Env) (c : List Route) (k tp ss : Except Unit (List Route)),
      env.cacheEnabled = true →
      env.cache (generateCacheKey p1) = some c →
      findCheapestRoutes env p2 k tp ss = c := by
  have hkey : generateCacheKey p1 = generateCacheKey p2 := by
    unfold generateCacheKey
    rw [hfrom, hto, hdate, hret, hpass, hcur]
  refine ⟨hkey, ?_⟩
  intro env c k tp ss hen hcache
  unfold findCheapestRoutes
  rw [hen, ← hkey]
  simp [hcache]

/-- C9, witness: two parameter sets differing in cabin class, bags and
trip type share the key, and the second search returns the first one's
cached list. -/
theorem generateCacheKey_ignores_witness :
    c9params1.cabinClass ≠ c9params2.cabinClass ∧
    c9params1.bags ≠ c9params2.bags ∧
    c9params1.tripType ≠ c9params2.tripType ∧
    generateCacheKey c9params1 = generateCacheKey c9params2 ∧
    findCheapestRoutes c9env c9params2 (Except.ok []) (Except.ok []) (Except.ok []) =
      c9cachedResult := by
  have h := generateCacheKey_ignores_cabin_bags_tripType c9params1 c9params2
    rfl rfl rfl rfl rfl rfl
  exact ⟨by decide, by decide, by decide, h.1,
    h.2 c9env c9cachedResult (Except.ok []) (Except.ok []) (Except.ok []) rfl rfl⟩

/-- C10: the validateConnection verdict is independent of the
caller-supplied minConnectionTimeMs: the initial assignment is overwritten
by the minutes-based policy table on every control path before any
comparison, so the whole result objects coincide. -/
theorem validateConnection_min_param_irrelevant (segmentA segmentB : Segment)
    (isVirtualInterline : Bool) (maxConnectionTimeMs m₁ m₂ : Int) :
    validateConnection segmentA segmentB m₁ maxConnectionTimeMs isVirtualInterline =
    validateConnection segmentA segmentB m₂ maxConnectionTimeMs isVirtualInterline := rfl
